import Mathlib

/-
Verification of the real-time event-to-cycle reconstruction engine and its
surrounding stream/durability plumbing.

Sources embedded here:
  * Frontend_dev/dev/src/pages/RequestsTracker.tsx — the Cycle Reconstruction
    Engine (grouping, per-cycle derivation, ordering), the presentation helper
    getMessageDetails used by the completion predicate, and the localStorage
    rehydration logic.
  * Frontend_dev/dev/src/contexts/AppContext.tsx — the bounded broadcast
    message list.
  * lib/api.ts (src/unnamed/part_001) — the WebSocket onmessage handler that
    feeds listeners.
  * The App.jsx variant embedded in src/App.css — the reconnecting WebSocket
    lifecycle (onopen/onmessage/onerror/onclose handlers, the 3000 ms
    setTimeout reconnect, the 10-attempt cap, and the effect cleanup).

Modelling conventions:
  * Timestamps are Nat values standing for the millisecond reading of
    Date.getTime() on the canonical ISO-8601 timestamp strings the code
    assigns at receipt time.  For such strings the lexicographic string
    comparison used at RequestsTracker.tsx:421 and the numeric comparison of
    Date.getTime() used everywhere else induce the same order, so a single
    Nat order models both faithfully.
  * JavaScript truthiness of optional string fields (undefined and the empty
    string are falsy) is modelled by strTruthy / jsOr / jsOrStr.
  * JavaScript objects used as string-keyed maps are modelled by
    insertion-ordered association lists; Object.values returns insertion
    order for the non-integer-like keys (email ids, thread ids,
    system-type-timestamp keys) that occur here.
  * The runtime JSON.parse is modelled by an executable recursive-descent
    parser over a JSON subset (integers, escape-free strings, arrays,
    objects); a parse failure (Except.error) stands for the thrown
    SyntaxError.
-/

/-- Model of a parsed JSON value, the result type of the runtime JSON.parse
as consumed by the stream handlers. -/
inductive Json where
  | null
  | bool (b : Bool)
  | num (n : Int)
  | str (s : String)
  | arr (elems : List Json)
  | obj (fields : List (String × Json))

/-- Skip JSON whitespace. -/
def jsonSkipWs : List Char → List Char
  | [] => []
  | c :: cs => if c = ' ' ∨ c = '\n' ∨ c = '\t' ∨ c = '\r' then jsonSkipWs cs else c :: cs

/-- Parse the body of a string literal after the opening quote; escape
sequences are outside the modelled subset and fail the parse. -/
def jsonStrBodyAux (acc : List Char) : List Char → Option (String × List Char)
  | [] => none
  | c :: cs =>
    if c = '"' then some (String.mk acc.reverse, cs)
    else if c = '\\' then none
    else jsonStrBodyAux (c :: acc) cs

/-- Parse a run of decimal digits into a Nat; fails when no digit was
consumed. -/
def jsonDigitsAux (acc : Nat) (consumed : Bool) : List Char → Option (Nat × List Char)
  | [] => if consumed then some (acc, []) else none
  | c :: cs =>
    if c.isDigit then jsonDigitsAux (acc * 10 + (c.toNat - 48)) true cs
    else if consumed then some (acc, c :: cs) else none

mutual

/-- Recursive-descent parser for a single JSON value; the fuel argument
bounds nesting depth and makes the recursion structural. -/
def jsonParseVal : Nat → List Char → Option (Json × List Char)
  | 0, _ => none
  | fuel + 1, cs =>
    match jsonSkipWs cs with
    | [] => none
    | c :: rest =>
      if c = '\x7b' then jsonParseObj fuel (jsonSkipWs rest)
      else if c = '[' then jsonParseArr fuel (jsonSkipWs rest)
      else if c = '"' then
        match jsonStrBodyAux [] rest with
        | some (s, r) => some (Json.str s, r)
        | none => none
      else if c = 't' then
        match rest with
        | 'r' :: 'u' :: 'e' :: r => some (Json.bool true, r)
        | _ => none
      else if c = 'f' then
        match rest with
        | 'a' :: 'l' :: 's' :: 'e' :: r => some (Json.bool false, r)
        | _ => none
      else if c = 'n' then
        match rest with
        | 'u' :: 'l' :: 'l' :: r => some (Json.null, r)
        | _ => none
      else if c = '-' then
        match jsonDigitsAux 0 false rest with
        | some (n, r) => some (Json.num (-(n : Int)), r)
        | none => none
      else if c.isDigit then
        match jsonDigitsAux 0 false (c :: rest) with
        | some (n, r) => some (Json.num (n : Int), r)
        | none => none
      else none

/-- Parse the inside of an array, positioned just after the opening bracket
(whitespace already skipped). -/
def jsonParseArr : Nat → List Char → Option (Json × List Char)
  | 0, _ => none
  | fuel + 1, cs =>
    match cs with
    | ']' :: r => some (Json.arr [], r)
    | _ => jsonParseElems fuel cs []

/-- Parse the comma-separated elements of a non-empty array. -/
def jsonParseElems : Nat → List Char → List Json → Option (Json × List Char)
  | 0, _, _ => none
  | fuel + 1, cs, acc =>
    match jsonParseVal fuel cs with
    | none => none
    | some (v, r) =>
      match jsonSkipWs r with
      | ',' :: r2 => jsonParseElems fuel (jsonSkipWs r2) (v :: acc)
      | ']' :: r2 => some (Json.arr (v :: acc).reverse, r2)
      | _ => none

/-- Parse the inside of an object, positioned just after the opening brace
(whitespace already skipped). -/
def jsonParseObj : Nat → List Char → Option (Json × List Char)
  | 0, _ => none
  | fuel + 1, cs =>
    match cs with
    | '\x7d' :: r => some (Json.obj [], r)
    | _ => jsonParseMembers fuel cs []

/-- Parse the comma-separated key-value members of a non-empty object. -/
def jsonParseMembers : Nat → List Char → List (String × Json) → Option (Json × List Char)
  | 0, _, _ => none
  | fuel + 1, cs, acc =>
    match cs with
    | '"' :: r =>
      match jsonStrBodyAux [] r with
      | none => none
      | some (k, r2) =>
        match jsonSkipWs r2 with
        | ':' :: r3 =>
          match jsonParseVal fuel (jsonSkipWs r3) with
          | none => none
          | some (v, r4) =>
            match jsonSkipWs r4 with
            | ',' :: r5 => jsonParseMembers fuel (jsonSkipWs r5) ((k, v) :: acc)
            | '\x7d' :: r5 => some (Json.obj ((k, v) :: acc).reverse, r5)
            | _ => none
        | _ => none
    | _ => none

end

/-- Model of the runtime JSON.parse: Except.error stands for the thrown
SyntaxError on malformed input. -/
def jsonParse (s : String) : Except String Json :=
  match jsonParseVal (s.length + 1) s.data with
  | some (j, rest) =>
    if (jsonSkipWs rest).isEmpty then Except.ok j
    else Except.error "SyntaxError: Unexpected token"
  | none => Except.error "SyntaxError: Unexpected end of JSON input"

/-- Whether an Except value is an error (a thrown exception in the model). -/
def exceptErr {α : Type} : Except String α → Bool
  | Except.error _ => true
  | Except.ok _ => false

/-- The BroadcastMessage record of RequestsTracker.tsx (the CanonicalEvent of
the spec).  The open-ended `details` bag is carried by the code but never
consulted by the engine or the helpers embedded here, so it is omitted.
`timestamp` is the Nat millisecond model of the ISO string (see header). -/
structure BroadcastMessage where
  id : String
  type : String
  email_id : Option String := none
  thread_id : Option String := none
  intent : Option String := none
  ado_ticket_id : Option String := none
  servicenow_sys_id : Option String := none
  ado_url : Option String := none
  servicenow_url : Option String := none
  pending_actions : Option Bool := none
  timestamp : Nat
  message : Option String := none
  subject : Option String := none
  sender : Option String := none
  is_valid_domain : Option Bool := none
  status : Option String := none
  comment : Option String := none
deriving Repr, DecidableEq

/-- The Cycle record of RequestsTracker.tsx (renamed: Mathlib already
declares a Cycle type). -/
structure RequestCycle where
  email_id : String
  thread_id : Option String := none
  messages : List BroadcastMessage
  lastTimestamp : Nat
  subject : Option String := none
  sender : Option String := none
  isCompleted : Bool
  isActive : Bool
  lastCompletionTimestamp : Option Nat := none
deriving Repr, DecidableEq

/-- JavaScript truthiness of an optional string field: undefined and the
empty string are falsy. -/
def strTruthy : Option String → Bool
  | some s => !s.isEmpty
  | none => false

/-- JavaScript `a || b` on two optional string fields. -/
def jsOr : Option String → Option String → Option String
  | some s, b => if s.isEmpty then b else some s
  | none, b => b

/-- JavaScript `a || b` where b is a string default. -/
def jsOrStr : Option String → String → String
  | some s, b => if s.isEmpty then b else s
  | none, b => b

/-- JavaScript String.includes on non-empty needles. -/
def strIncludes (s pat : String) : Bool := !((s.splitOn pat).length == 1)

/-- The actionLabels table inside the action_performed branch of
getMessageDetails (RequestsTracker.tsx:181-196). -/
def intentActionLabel : String → Option String
  | "github_create_repo" => some "Created GitHub Repository"
  | "github_commit_file" => some "Committed File to Repository"
  | "github_delete_repo" => some "Deleted GitHub Repository"
  | "github_access_request" => some "Granted Repository Access"
  | "github_revoke_access" => some "Revoked Repository Access"
  | "aws_s3_create_bucket" => some "Created S3 Bucket"
  | "aws_s3_delete_bucket" => some "Deleted S3 Bucket"
  | "aws_ec2_launch_instance" => some "Launched EC2 Instance"
  | "aws_ec2_terminate_instance" => some "Terminated EC2 Instance"
  | "aws_iam_add_user" => some "Added IAM User"
  | "aws_iam_remove_user" => some "Removed IAM User"
  | "aws_iam_add_user_permission" => some "Added IAM User Permission"
  | "aws_iam_remove_user_permission" => some "Removed IAM User Permission"
  | "aws_ec2_run_script" => some "Executed Script on EC2 Instance"
  | _ => none

/-- getMessageDetails (RequestsTracker.tsx:152-251): renders the type-specific
detail text of a message.  The engine consults it (lowercased) for the
access-revocation completion indicator on action_performed messages. -/
def getMessageDetails (message : BroadcastMessage) : String :=
  if message.type == "email_detected" then
    "Subject: " ++ jsOrStr message.subject "No Subject" ++ ", From: " ++
      jsOrStr message.sender "Unknown" ++
      (if message.is_valid_domain == some false then
        " - <span class=\"text-red-600 font-medium\">UNAUTHORIZED DOMAIN</span>"
      else "")
  else if message.type == "intent_analyzed" then
    "Intent: " ++ jsOrStr message.intent "Unknown" ++
      (match message.pending_actions with
       | some b => ", Pending Actions: " ++ (if b then "Yes" else "No")
       | none => "")
  else if message.type == "ticket_created" then
    String.intercalate "; " (List.filterMap id
      [ (if strTruthy message.ado_ticket_id then
          some ("ADO Ticket ID: " ++ jsOrStr message.ado_ticket_id "" ++
            (if strTruthy message.ado_url then
              ", <a href=\"" ++ jsOrStr message.ado_url "" ++
                "\" target=\"_blank\" rel=\"noopener noreferrer\" class=\"text-blue-600 hover:underline\">View in ADO</a>"
            else ""))
        else none),
        (if strTruthy message.servicenow_sys_id then
          some ("ServiceNow ID: " ++ jsOrStr message.servicenow_sys_id "" ++
            (if strTruthy message.servicenow_url then
              ", <a href=\"" ++ jsOrStr message.servicenow_url "" ++
                "\" target=\"_blank\" rel=\"noopener noreferrer\" class=\"text-blue-600 hover:underline\">View in ServiceNow</a>"
            else ""))
        else none),
        (if strTruthy message.intent then
          some ("Intent: " ++ jsOrStr message.intent "")
        else none) ])
  else if message.type == "action_performed" then
    let msgLower := (message.message.getD "").toLower
    let isPermissionAction := strIncludes msgLower "permission" ||
      strIncludes msgLower "policy" || strIncludes msgLower "role"
    let isFileCommit := strIncludes msgLower "file" && strIncludes msgLower "commit"
    let isPermissionFix := strIncludes msgLower "fixed permission"
    let isS3BucketAction := strIncludes msgLower "s3 bucket"
    let isScriptExecution := strIncludes msgLower "script" && strIncludes msgLower "executed"
    let actionLabel :=
      if isPermissionAction then "Permission Action"
      else if isFileCommit then "File Committed"
      else if isPermissionFix then "Permission Fixed"
      else if isS3BucketAction then "S3 Bucket Action"
      else if isScriptExecution then "Script Executed"
      else if strTruthy message.intent then
        match intentActionLabel (jsOrStr message.intent "") with
        | some l => l
        | none => "Performed Action"
      else "Performed Action"
    let actionDetail := jsOrStr message.message "Action completed"
    String.intercalate "; " (List.filterMap id
      [ some (actionLabel ++ ": " ++ actionDetail),
        (if strTruthy message.ado_ticket_id then
          some ("ADO Ticket ID: " ++ jsOrStr message.ado_ticket_id "")
        else none),
        (if strTruthy message.servicenow_sys_id then
          some ("ServiceNow ID: " ++ jsOrStr message.servicenow_sys_id "")
        else none) ])
  else if message.type == "email_reply" then
    jsOrStr message.message "No reply message available"
  else if message.type == "session" then
    if strTruthy message.status then "Status: " ++ jsOrStr message.status ""
    else "No status available"
  else if message.type == "error" || message.type == "spam_alert" then
    jsOrStr message.message "No details available"
  else if message.type == "monitoring_started" then
    jsOrStr message.message "Monitoring started"
  else if message.type == "monitoring_stopped" then
    jsOrStr message.message "Monitoring stopped"
  else if message.type == "permission_fixed" then
    "Permission fixed: " ++ jsOrStr message.message "Issue resolved"
  else if message.type == "script_execution_failed" then
    "Script execution failed: " ++ jsOrStr message.message "Error occurred"
  else if message.type == "ticket_updated" then
    "Status: " ++ jsOrStr message.status "" ++ ", Comment: " ++
      jsOrStr message.comment "No comment"
  else
    jsOrStr message.message "No details available"

/-- Lookup in an insertion-ordered association list (JS object indexing). -/
def lookupA {α : Type} (l : List (String × α)) (k : String) : Option α :=
  match l.find? (fun p => p.1 == k) with
  | some p => some p.2
  | none => none

/-- In-place update of the binding at a key (JS property mutation); keys are
unique by construction, so at most one binding changes. -/
def updA {α : Type} (l : List (String × α)) (k : String) (f : α → α) : List (String × α) :=
  l.map (fun p => if p.1 == k then (p.1, f p.2) else p)

/-- The mutable state threaded through the grouping pass of
RequestsTracker.tsx:384-428: groupedByThread and threadToCycleMap. -/
structure GroupState where
  groups : List (String × RequestCycle)
  threadMap : List (String × String)
deriving Repr, DecidableEq

/-- Empty grouping state at the start of a recomputation pass. -/
def initGroupState : GroupState := { groups := [], threadMap := [] }

/-- Correlation-key resolution (RequestsTracker.tsx:388-401): returns the
resolved cycle key, the thread id to stamp on a newly created cycle (only
set by the register-new-thread branch), and the updated threadToCycleMap. -/
def resolveKey (st : GroupState) (msg : BroadcastMessage) :
    String × Option String × List (String × String) :=
  if strTruthy msg.thread_id ∧
      strTruthy (lookupA st.threadMap (msg.thread_id.getD "")) then
    ((lookupA st.threadMap (msg.thread_id.getD "")).getD "", none, st.threadMap)
  else if strTruthy msg.thread_id then
    ((msg.thread_id.getD ""), some (msg.thread_id.getD ""),
      st.threadMap ++ [(msg.thread_id.getD "", msg.thread_id.getD "")])
  else if strTruthy msg.email_id then
    (msg.email_id.getD "", none, st.threadMap)
  else
    ("system-" ++ msg.type ++ "-" ++ toString msg.timestamp, none, st.threadMap)

/-- One iteration of the grouping pass (RequestsTracker.tsx:387-428): resolve
the correlation key, create the cycle on first encounter, append the message
unless its id is already a member, fold lastTimestamp (max) and
subject/sender (first-write-wins under JS truthiness), and finally the
thread-to-cycle registration of line 425 (unreachable in practice, embedded
for fidelity). -/
def assignMessage (st : GroupState) (msg : BroadcastMessage) : GroupState :=
  let r := resolveKey st msg
  let cycleKey := r.1
  let cycleThreadId := r.2.1
  let tm := r.2.2
  let groups0 :=
    match lookupA st.groups cycleKey with
    | some _ => st.groups
    | none =>
      st.groups ++ [(cycleKey,
        { email_id := jsOrStr msg.email_id cycleKey,
          thread_id := cycleThreadId,
          messages := [],
          lastTimestamp := msg.timestamp,
          subject := msg.subject,
          sender := msg.sender,
          isCompleted := false,
          isActive := false,
          lastCompletionTimestamp := none })]
  let groups1 := updA groups0 cycleKey (fun c =>
    let c1 := if c.messages.any (fun existing => existing.id == msg.id) then c
      else { c with messages := c.messages ++ [msg] }
    let c2 := { c1 with lastTimestamp :=
      if c1.lastTimestamp < msg.timestamp then msg.timestamp else c1.lastTimestamp }
    { c2 with subject := jsOr c2.subject msg.subject,
              sender := jsOr c2.sender msg.sender })
  let tm2 :=
    if strTruthy msg.thread_id ∧ strTruthy msg.email_id ∧
        ¬ strTruthy (lookupA tm (msg.thread_id.getD "")) = true then
      tm ++ [(msg.thread_id.getD "", cycleKey)]
    else tm
  { groups := groups1, threadMap := tm2 }

/-- Stable insertion into an ascending-by-timestamp list; models the stable
JS Array.sort with comparator (a, b) => ta - tb at RequestsTracker.tsx:431. -/
def insertByTs (sorted : List BroadcastMessage) (m : BroadcastMessage) :
    List BroadcastMessage :=
  match sorted with
  | [] => [m]
  | x :: xs => if x.timestamp ≤ m.timestamp then x :: insertByTs xs m else m :: x :: xs

/-- Sort members ascending by timestamp (stable). -/
def sortMessagesByTs (l : List BroadcastMessage) : List BroadcastMessage :=
  l.foldl insertByTs []

/-- The completion-indicating filter of RequestsTracker.tsx:433-438: terminal
reply type, or an action_performed whose rendered details contain the
access-revocation indicator, or an error type. -/
def isCompletionMessage (msg : BroadcastMessage) : Bool :=
  msg.type == "email_reply" ||
  (msg.type == "action_performed" &&
    strIncludes (getMessageDetails msg).toLower "access revoked") ||
  msg.type == "error"

/-- Timestamp of the newest completion-indicating member: the source sorts
the filtered list descending by timestamp and reads the first entry, i.e.
the maximum timestamp (RequestsTracker.tsx:441-446). -/
def maxCompletionTs : List BroadcastMessage → Option Nat
  | [] => none
  | m :: ms => some (ms.foldl (fun acc x => Nat.max acc x.timestamp) m.timestamp)

/-- Per-cycle derivation (RequestsTracker.tsx:430-462): sort members, find
completion-indicating members, derive lastCompletionTimestamp,
hasNewMessagesAfterCompletion, isCompleted, and isActive against the
30-minute liveness window.  `now` is the wall-clock Date.getTime() reading;
the division-free comparison now - last < 30 * 60 * 1000 is equivalent to
the sources timeDiffMinutes < 30. -/
def deriveCycle (now : Nat) (cycle : RequestCycle) : RequestCycle :=
  let sorted := sortMessagesByTs cycle.messages
  let completionMessages := sorted.filter isCompletionMessage
  let lastCompletion := maxCompletionTs completionMessages
  let hasNewMessagesAfterCompletion :=
    match lastCompletion with
    | some t => sorted.any (fun m => t < m.timestamp)
    | none => false
  let isCompleted := !completionMessages.isEmpty && !hasNewMessagesAfterCompletion
  let isActive := (!isCompleted || hasNewMessagesAfterCompletion) &&
    decide (now - cycle.lastTimestamp < 30 * 60 * 1000)
  { cycle with
    messages := sorted,
    isCompleted := isCompleted,
    isActive := isActive,
    lastCompletionTimestamp :=
      match lastCompletion with
      | some t => some t
      | none => cycle.lastCompletionTimestamp }

/-- Stable insertion into a descending-by-lastTimestamp list; models the
stable JS Array.sort with comparator (a, b) => tb - ta at
RequestsTracker.tsx:464-466. -/
def insertCycleDesc (sorted : List RequestCycle) (c : RequestCycle) :
    List RequestCycle :=
  match sorted with
  | [] => [c]
  | x :: xs =>
    if c.lastTimestamp ≤ x.lastTimestamp then x :: insertCycleDesc xs c
    else c :: x :: xs

/-- Global ordering: cycles sorted descending by lastTimestamp (stable). -/
def sortCyclesDesc (l : List RequestCycle) : List RequestCycle :=
  l.foldl insertCycleDesc []

/-- One step of the id-deduplication reduce at RequestsTracker.tsx:377-382. -/
def dedupeStep (acc : List BroadcastMessage) (msg : BroadcastMessage) :
    List BroadcastMessage :=
  if acc.any (fun m => m.id == msg.id) then acc else acc ++ [msg]

/-- combinedMessages: keep the first occurrence of each message id. -/
def dedupeById (msgs : List BroadcastMessage) : List BroadcastMessage :=
  msgs.foldl dedupeStep []

/-- The full Cycle Reconstruction Engine pass of the processing effect
(RequestsTracker.tsx:376-468): deduplicate the concatenation of the
accumulated and live message lists by id, group by resolved correlation key,
derive completion/liveness per cycle, and order descending by
lastTimestamp. -/
def reconstructCycles (allMessages broadcastMessages : List BroadcastMessage)
    (now : Nat) : List RequestCycle :=
  sortCyclesDesc
    ((((dedupeById (allMessages ++ broadcastMessages)).foldl assignMessage
        initGroupState).groups.map (fun p => p.2)).map (deriveCycle now))

/-- State of the reconnecting WebSocket effect in the App.jsx variant
embedded in src/App.css (lines 566-783).  reconnectAttempts and wsError are
the variables of the source; socketLive (a socket exists whose close event
has not yet fired), timerPending (a setTimeout(connectWebSocket, 3000) is
outstanding), reconnectsScheduled / scheduledDelays (history of setTimeout
calls) and terminalErrorCount (how many times the exhausted-retries branch
ran) are observation fields recording what the handlers do. -/
structure WsConn where
  reconnectAttempts : Nat
  socketLive : Bool
  timerPending : Bool
  wsError : Option String
  reconnectsScheduled : Nat
  terminalErrorCount : Nat
  scheduledDelays : List Nat
deriving Repr, DecidableEq

/-- The maxAttempts constant (App.css:569). -/
def wsMaxAttempts : Nat := 10

/-- State right after the effect body runs connectWebSocket() for the first
time (App.css:781): a live socket, zero attempts, no error, no timer. -/
def wsInitial : WsConn :=
  { reconnectAttempts := 0, socketLive := true, timerPending := false,
    wsError := none, reconnectsScheduled := 0, terminalErrorCount := 0,
    scheduledDelays := [] }

/-- The onopen handler (App.css:573-577): clear the error and reset the
attempt counter. -/
def wsOnOpen (s : WsConn) : WsConn :=
  { s with wsError := none, reconnectAttempts := 0 }

/-- The onerror handler (App.css:766-769): record a connection-failed
error. -/
def wsOnError (s : WsConn) : WsConn :=
  { s with wsError := some "WebSocket connection failed" }

/-- The onclose handler (App.css:770-778): below the attempt cap, increment
the counter and schedule connectWebSocket after a fixed 3000 ms delay;
at the cap, surface the terminal disconnected-after-max-retries error and
schedule nothing.  The handler consults no manual-close flag. -/
def wsOnClose (s : WsConn) : WsConn :=
  if s.reconnectAttempts < wsMaxAttempts then
    { s with reconnectAttempts := s.reconnectAttempts + 1,
             socketLive := false,
             timerPending := true,
             reconnectsScheduled := s.reconnectsScheduled + 1,
             scheduledDelays := s.scheduledDelays ++ [3000] }
  else
    { s with socketLive := false,
             wsError := some "WebSocket disconnected after max retries",
             terminalErrorCount := s.terminalErrorCount + 1 }

/-- A pending reconnect timer fires: connectWebSocket() runs and a new
socket exists (App.css:774 and 571). -/
def wsTimerFire (s : WsConn) : WsConn :=
  { s with timerPending := false, socketLive := true }

/-- The effect cleanup (App.css:782): `return () => ws && ws.close()`.  It
only asks the current socket to close; it sets no flag, clears no pending
timer, and touches none of the reconnect state, so it is the identity on
this state — the socket then emits a close event handled by wsOnClose. -/
def wsCleanupClose (s : WsConn) : WsConn := s

/-- One round of the repeated-forced-closure experiment: the live socket
(if any) is forced closed, and any reconnect timer that the close handler
scheduled then fires, so the next connection attempt exists for the next
round.  No connection ever reaches onopen, matching the exhaustion scenario
in which every reconnect attempt fails. -/
def forcedClosureStep (s : WsConn) : WsConn :=
  let s1 := if s.socketLive then wsOnClose s else s
  if s1.timerPending then wsTimerFire s1 else s1

/-- The state after k rounds of forced closure starting from the initial
connection. -/
def forcedClosureRun : Nat → WsConn
  | 0 => wsInitial
  | k + 1 => forcedClosureStep (forcedClosureRun k)

/-- AppContext.tsx:170 — each stream message is prepended to the broadcast
list, which is then truncated to its 100 most recent entries:
`setBroadcastMessages(prev => [message, ...prev].slice(0, 100))`. -/
def addBroadcastMessage (m : BroadcastMessage) (prev : List BroadcastMessage) :
    List BroadcastMessage :=
  (m :: prev).take 100

/-- The broadcast list accumulated from a whole stream of messages, starting
from the empty initial state. -/
def broadcastLog (msgs : List BroadcastMessage) : List BroadcastMessage :=
  msgs.foldl (fun acc m => addBroadcastMessage m acc) []

/-- The onmessage handler of lib/api.ts (src/unnamed/part_001, lines 46-49):
parse the payload, then feed the parsed data to every registered listener.
There is no try/catch around JSON.parse, so a parse failure escapes the
handler as an exception (the Except.error branch).  Listener effects are
modelled as state transformers over an arbitrary listener state. -/
def wsOnMessage {σ : Type} (wsListeners : List (Json → σ → σ)) (raw : String)
    (st : σ) : Except String σ :=
  match jsonParse raw with
  | Except.error e => Except.error e
  | Except.ok data => Except.ok (wsListeners.foldl (fun acc l => l data acc) st)

/-- Modelled from the spec: the browser event loop delivers each stream
message in its own isolated handler invocation, so an uncaught exception
aborts only that invocation and leaves the listener state unchanged;
subsequent messages are still delivered.  (This delivery loop lives in the
runtime, not in the repository.) -/
def deliverStream {σ : Type} (wsListeners : List (Json → σ → σ))
    (raws : List String) (st : σ) : σ :=
  raws.foldl (fun acc raw =>
    match wsOnMessage wsListeners raw acc with
    | Except.ok s2 => s2
    | Except.error _ => acc) st

/-- The fixed localStorage key of the durability layer
(RequestsTracker.tsx:316). -/
def activityMessagesKey : String := "activityMessages"

/-- The rehydration effect of RequestsTracker.tsx:315-325: read the stored
payload, skip it when absent or falsy, otherwise JSON.parse it inside a
try/catch — on success the parsed value becomes the accumulated list, on a
parse error the exception is caught (and logged) and the state keeps its
empty initial value.  `decode` stands for the unchecked TypeScript cast of
the parsed JSON to BroadcastMessage[]. -/
def loadStoredMessages (decode : Json → List BroadcastMessage)
    (storedMessages : Option String) : List BroadcastMessage :=
  if strTruthy storedMessages then
    match jsonParse (storedMessages.getD "") with
    | Except.ok parsed => decode parsed
    | Except.error _ => []
  else []

/-- Creation event at T0 = 1000 of the C1/C3 scenarios: keyed by email id
e1, not completion-indicating. -/
def msgCreated : BroadcastMessage :=
  { id := "m1", type := "ticket_created", email_id := some "e1", timestamp := 1000 }

/-- Terminal reply event at T1 = 2000 of the C1/C3 scenarios. -/
def msgReply : BroadcastMessage :=
  { id := "m2", type := "email_reply", email_id := some "e1", timestamp := 2000 }

/-- Error event at T2 = 3000 of the C1 scenario (T2 > T1). -/
def msgErrorEvent : BroadcastMessage :=
  { id := "m3", type := "error", email_id := some "e1", timestamp := 3000 }

/-- The email_detected event of the C2 scenario: email id e1, subject VPN,
no thread id. -/
def msgDetected : BroadcastMessage :=
  { id := "m4", type := "email_detected", email_id := some "e1",
    subject := some "VPN", timestamp := 1000 }

/-- The email_reply event of the C2 scenario: email id e1 and thread id t1. -/
def msgReplyThreaded : BroadcastMessage :=
  { id := "m5", type := "email_reply", email_id := some "e1",
    thread_id := some "t1", timestamp := 2000 }

/-- Claim C1 is false on the code: for the cycle [created@1000, reply@2000,
error@3000] the engine derives completed = true, not false — the error event
is itself completion-indicating, so the last completion timestamp is T2 and
nothing is newer than it.  The lastCompletionTimestamp = 3000 component
exhibits this. -/
theorem c1_reopening_counterexample :
    (reconstructCycles [msgCreated, msgReply, msgErrorEvent] [] 3000).map
      (fun c => (c.isCompleted, c.lastCompletionTimestamp)) =
      [(true, some 3000)] := by decide

/-- Claim C1 as amended: for a cycle whose members are a creation event at
T0, a terminal reply at T1 and an error at T2 > T1, the error is itself a
completion-indicating member, so the engine derives completed = true and
active = false regardless of the wall-clock reading. -/
theorem c1_reopening_amended (now : Nat) :
    (reconstructCycles [msgCreated, msgReply, msgErrorEvent] [] now).map
      (fun c => (c.isCompleted, c.isActive)) = [(true, false)] := rfl

/-- Claim C2: the code produces two cycles for the scenario
email_detected(email_id e1) then email_reply(email_id e1, thread_id t1),
not the single merged cycle the claim describes — the reply is keyed by its
thread id, and the thread-to-cycle registration that would merge it
(RequestsTracker.tsx:425) is unreachable because the register-new-thread
branch always fills the map first.  Evaluating the engine at the failing
input: the output is a thread-keyed cycle holding only the reply and an
email-keyed cycle holding only the detection event. -/
theorem c2_scenario_two_cycles :
    (reconstructCycles [] [msgDetected, msgReplyThreaded] 2000).map
      (fun c => (c.email_id, c.thread_id, c.messages.map (fun m => m.id))) =
      [("e1", some "t1", ["m5"]), ("e1", none, ["m4"])] ∧
    (reconstructCycles [] [msgDetected, msgReplyThreaded] 2000).length = 2 := by
  decide

/-- Claim C3 is false on the code: for the cycle [created@1000, reply@2000]
with the wall clock at 2001 — well inside the 30-minute window after T1 —
the engine still derives active = false, because a completed cycle with no
newer activity always fails the first conjunct of the active formula. -/
theorem c3_completion_counterexample :
    (reconstructCycles [msgCreated, msgReply] [] 2001).map
      (fun c => (c.isCompleted, c.isActive)) = [(true, false)] := by decide

/-- Claim C3 as amended: for a cycle whose members are a creation event at
T0 and a terminal reply at T1 (and nothing further) the engine derives
completed = true and active = false regardless of the elapsed wall-clock
time — active requires NOT completed (or newer activity), so a completed
cycle is never active. -/
theorem c3_completion_amended (now : Nat) :
    (reconstructCycles [msgCreated, msgReply] [] now).map
      (fun c => (c.isCompleted, c.isActive)) = [(true, false)] := rfl

/-- A message satisfying a predicate survives one deduplication step. -/
theorem dedupeStep_any_mono (acc : List BroadcastMessage) (m : BroadcastMessage)
    (p : BroadcastMessage → Bool) (h : acc.any p = true) :
    (dedupeStep acc m).any p = true := by
  unfold dedupeStep
  split
  · exact h
  · rw [List.any_append]
    simp [h]

/-- A message satisfying a predicate survives the whole deduplication fold. -/
theorem dedupe_foldl_any_mono (l : List BroadcastMessage)
    (acc : List BroadcastMessage) (p : BroadcastMessage → Bool)
    (h : acc.any p = true) :
    (l.foldl dedupeStep acc).any p = true := by
  induction l generalizing acc with
  | nil => exact h
  | cons x xs ih => exact ih _ (dedupeStep_any_mono acc x p h)

/-- Every id occurring in the input occurs in the deduplicated output. -/
theorem dedupe_foldl_mem_any (l acc : List BroadcastMessage)
    (m : BroadcastMessage) (hm : m ∈ l) :
    (l.foldl dedupeStep acc).any (fun x => x.id == m.id) = true := by
  induction l generalizing acc with
  | nil => cases hm
  | cons x xs ih =>
    rcases List.mem_cons.mp hm with h | h
    · subst h
      rw [List.foldl_cons]
      apply dedupe_foldl_any_mono
      unfold dedupeStep
      split
      · assumption
      · rw [List.any_append]
        simp
    · exact ih _ h

/-- Folding messages whose ids are all already present leaves the
accumulator unchanged. -/
theorem dedupe_foldl_stable (l acc : List BroadcastMessage)
    (h : ∀ m ∈ l, acc.any (fun x => x.id == m.id) = true) :
    l.foldl dedupeStep acc = acc := by
  induction l with
  | nil => rfl
  | cons x xs ih =>
    have hx : dedupeStep acc x = acc := by
      unfold dedupeStep
      rw [if_pos (h x (List.mem_cons_self x xs))]
    rw [List.foldl_cons, hx, ih (fun m hm => h m (List.mem_cons_of_mem x hm))]

/-- Re-presenting the same message list to the deduplication reduce changes
nothing. -/
theorem dedupeById_append_self (l : List BroadcastMessage) :
    dedupeById (l ++ l) = dedupeById l := by
  unfold dedupeById
  rw [List.foldl_append]
  exact dedupe_foldl_stable l (l.foldl dedupeStep [])
    (fun m hm => dedupe_foldl_mem_any l [] m hm)

/-- Claim C9: the engine is a pure function of the accumulated event set and
the wall-clock reading, so re-running it is deterministic by construction;
the substantive content — recomputing over the same accumulated events even
when the whole batch is re-delivered alongside them yields identical cycles,
with identical membership and identical completed/active flags — is what
this theorem states: the engine output over (msgs, msgs) equals the output
over (msgs, nothing). -/
theorem c9_idempotent_regroup (msgs : List BroadcastMessage) (now : Nat) :
    reconstructCycles msgs msgs now = reconstructCycles msgs [] now := by
  unfold reconstructCycles
  rw [List.append_nil, dedupeById_append_self]

/-- Any fold of the bounded-prepend update keeps the broadcast list within
100 entries. -/
theorem broadcastFold_length_le (msgs : List BroadcastMessage)
    (acc : List BroadcastMessage) (h : acc.length ≤ 100) :
    (msgs.foldl (fun a m => addBroadcastMessage m a) acc).length ≤ 100 := by
  induction msgs generalizing acc with
  | nil => exact h
  | cons x xs ih =>
    apply ih
    unfold addBroadcastMessage
    rw [List.length_take]
    exact Nat.min_le_left _ _

/-- Claim C10: every update prepends the new message (newest first) and
truncates to the 100 most recent entries, so a single update never yields
more than 100 entries and the list accumulated from any stream stays within
100 entries. -/
theorem c10_broadcast_bounded (m : BroadcastMessage)
    (prev msgs : List BroadcastMessage) :
    (addBroadcastMessage m prev).length ≤ 100 ∧
    (addBroadcastMessage m prev).head? = some m ∧
    (broadcastLog msgs).length ≤ 100 := by
  refine ⟨?_, rfl, ?_⟩
  · unfold addBroadcastMessage
    rw [List.length_take]
    exact Nat.min_le_left _ _
  · exact broadcastFold_length_le msgs [] (by simp)

/-- Claim C4: evaluating the code at the failing input.  The effect cleanup
ws.close() sets no manual-close flag and clears nothing, so the closure
event it provokes runs the ordinary onclose handler, which — with
reconnectAttempts = 0 below the cap — schedules a reconnection attempt
(setTimeout(connectWebSocket, 3000)): one reconnect is scheduled and a
backoff timer is pending after shutdown, not zero. -/
theorem c4_manual_close_schedules_reconnect :
    (wsOnClose (wsCleanupClose wsInitial)).reconnectsScheduled = 1 ∧
    (wsOnClose (wsCleanupClose wsInitial)).timerPending = true := by decide

/-- Claim C5 is false on the code: the first two abnormal closures both
schedule the reconnect after 3000 ms.  Under the claimed schedule
base × 2 ^ attempt, the first delay pins base = 3000, so the second delay
would have to be 3000 × 2 ^ 1 = 6000, which 3000 is not. -/
theorem c5_backoff_counterexample :
    (wsOnClose (wsTimerFire (wsOnClose wsInitial))).scheduledDelays = [3000, 3000] ∧
    (3000 : Nat) ≠ 3000 * 2 ^ 1 := by decide

/-- Claim C5 as amended: on every abnormal closure while the attempt count
is below the cap, the handler schedules the next reconnection attempt after
a fixed 3000 ms delay — constant, not exponential. -/
theorem c5_fixed_delay (s : WsConn) (h : s.reconnectAttempts < wsMaxAttempts) :
    (wsOnClose s).scheduledDelays = s.scheduledDelays ++ [3000] := by
  unfold wsOnClose
  rw [if_pos h]

/-- Witness for the amended C5 at the initial connection state. -/
theorem c5_fixed_delay_witness :
    wsInitial.reconnectAttempts < wsMaxAttempts ∧
    (wsOnClose wsInitial).scheduledDelays = wsInitial.scheduledDelays ++ [3000] :=
  ⟨by decide, c5_fixed_delay wsInitial (by decide)⟩

/-- After round 11 the forced-closure experiment is frozen: the terminal
branch left no live socket and no pending timer, so every later round is the
identity. -/
theorem forcedClosureRun_frozen (k : Nat) (h : 11 ≤ k) :
    forcedClosureRun k = forcedClosureRun 11 := by
  induction k with
  | zero => omega
  | succ n ih =>
    rcases Nat.lt_or_ge n 11 with h1 | h2
    · have hn : n + 1 = 11 := by omega
      rw [hn]
    · have hstep : forcedClosureRun (n + 1) = forcedClosureStep (forcedClosureRun n) := rfl
      rw [hstep, ih h2]
      decide

/-- Claim C7: under repeated forced closures with no successful reopen, the
first 10 closures each schedule a reconnect; the 11th closure takes the
exhausted branch — surfacing the terminal failure exactly once — and leaves
neither a live socket nor a pending timer, so from round 11 on the reconnect
count stays at 10 (no further attempt ever occurs) and the terminal error
count stays at 1. -/
theorem c7_reconnect_bound (k : Nat) (h : 11 ≤ k) :
    (forcedClosureRun k).reconnectsScheduled = 10 ∧
    (forcedClosureRun k).terminalErrorCount = 1 ∧
    (forcedClosureRun k).timerPending = false ∧
    (forcedClosureRun k).socketLive = false := by
  rw [forcedClosureRun_frozen k h]
  decide

/-- Witness for C7 at k = 20 rounds. -/
theorem c7_reconnect_bound_witness :
    11 ≤ 20 ∧
    ((forcedClosureRun 20).reconnectsScheduled = 10 ∧
     (forcedClosureRun 20).terminalErrorCount = 1 ∧
     (forcedClosureRun 20).timerPending = false ∧
     (forcedClosureRun 20).socketLive = false) :=
  ⟨by decide, c7_reconnect_bound 20 (by decide)⟩

/-- Claim C6 is false as stated: the onmessage handler has no try/catch
around JSON.parse, so a malformed payload raises the parse exception out of
the message handler instead of being caught and logged — here with a
concrete counting listener and the malformed payload consisting of a single
opening brace. -/
theorem c6_malformed_counterexample :
    exceptErr (wsOnMessage [fun (_ : Json) (n : Nat) => n + 1] "\x7b" 0) = true := by
  decide

/-- Claim C6 as amended: a malformed payload makes the message handler raise
the uncaught parse exception (nothing in the handler catches or logs it);
the failing delivery leaves the listener state untouched and — because the
event loop isolates handler invocations — the surrounding messages are
processed exactly as if the malformed one had not been delivered. -/
theorem c6_malformed_dropped {σ : Type} (wsListeners : List (Json → σ → σ))
    (pre post : List String) (bad : String) (st : σ)
    (h : exceptErr (jsonParse bad) = true) :
    exceptErr (wsOnMessage wsListeners bad st) = true ∧
    deliverStream wsListeners (pre ++ bad :: post) st =
      deliverStream wsListeners (pre ++ post) st := by
  have hb : ∀ (s2 : σ),
      (match wsOnMessage wsListeners bad s2 with
        | Except.ok s3 => s3
        | Except.error _ => s2) = s2 := by
    intro s2
    unfold wsOnMessage
    cases hj : jsonParse bad with
    | ok v =>
      rw [hj] at h
      simp [exceptErr] at h
    | error e => rfl
  constructor
  · unfold wsOnMessage
    cases hj : jsonParse bad with
    | ok v =>
      rw [hj] at h
      simp [exceptErr] at h
    | error e => rfl
  · have hsplit : ∀ (l1 l2 : List String) (s0 : σ),
        deliverStream wsListeners (l1 ++ l2) s0 =
        deliverStream wsListeners l2 (deliverStream wsListeners l1 s0) := by
      intro l1 l2 s0
      unfold deliverStream
      rw [List.foldl_append]
    have h2 : ∀ (s2 : σ),
        deliverStream wsListeners (bad :: post) s2 =
        deliverStream wsListeners post s2 := by
      intro s2
      unfold deliverStream
      rw [List.foldl_cons]
      congr 1
      exact hb s2
    rw [hsplit pre (bad :: post) st, hsplit pre post st, h2]

/-- Witness for the amended C6: a well-formed message, then the malformed
payload consisting of a single closing bracket, then another well-formed
message, against a counting listener. -/
theorem c6_malformed_dropped_witness :
    exceptErr (jsonParse "]") = true ∧
    (exceptErr (wsOnMessage [fun (_ : Json) (n : Nat) => n + 3] "]" 0) = true ∧
     deliverStream [fun (_ : Json) (n : Nat) => n + 3] (["1"] ++ "]" :: ["2"]) 0 =
       deliverStream [fun (_ : Json) (n : Nat) => n + 3] (["1"] ++ ["2"]) 0) :=
  ⟨by decide,
   c6_malformed_dropped [fun (_ : Json) (n : Nat) => n + 3] ["1"] ["2"] "]" 0 (by decide)⟩

/-- Claim C8: when the stored payload under the activityMessages key is
unparseable, the catch branch swallows the parse error and initialization
proceeds with the empty accumulated event list; the function is total, so
no error reaches the caller.  (The console logging in the catch is an
unmodelled side effect.) -/
theorem c8_corrupt_storage (decode : Json → List BroadcastMessage) (s : String)
    (h : exceptErr (jsonParse s) = true) :
    loadStoredMessages decode (some s) = [] := by
  unfold loadStoredMessages
  by_cases ht : strTruthy (some s) = true
  · rw [if_pos ht]
    cases hj : jsonParse ((some s).getD "") with
    | ok v =>
      exfalso
      have he : (some s).getD "" = s := rfl
      rw [he] at hj
      rw [hj] at h
      simp [exceptErr] at h
    | error e => rfl
  · rw [if_neg ht]

/-- Witness for C8 with the corrupt payload consisting of an opening brace
followed by junk. -/
theorem c8_corrupt_storage_witness :
    exceptErr (jsonParse "\x7bbad") = true ∧
    loadStoredMessages (fun _ => []) (some "\x7bbad") = [] :=
  ⟨by decide, c8_corrupt_storage (fun _ => []) "\x7bbad" (by decide)⟩
